import Mathlib

/-!
Verification of the PulseOps authorization / session-security core
(`src/core/permissions.py` and `src/core/security.py`) against its
design specification.

The Python code is shallowly embedded: enums become inductives, dict
payloads become structures of `Option` fields (`none` = key absent or
`None`), datetimes become `Int` unix timestamps, raising functions
return `Except`, and per-instance mutable state (the revocation
blacklist, the rate-limit history) is passed explicitly.  External
libraries (jose/PyJWT signing, SHA-256, Fernet, base64) are modelled at
their call boundary: tokens are represented by their decoded payloads
(we reason about well-signed tokens), and the hash/cipher functions are
parameters of the definitions that call them.
-/

namespace PulseOps

/-! ### Roles and scopes (`permissions.py`) -/

inductive UserRole
  | ADMIN
  | DOCTOR
deriving DecidableEq

def UserRole.value : UserRole → String
  | .ADMIN => "ADMIN"
  | .DOCTOR => "DOCTOR"

/-- Python `UserRole(s)`: raises `ValueError` (here `none`) unless `s` is a member value. -/
def UserRole.ofString : String → Option UserRole
  | "ADMIN" => some .ADMIN
  | "DOCTOR" => some .DOCTOR
  | _ => none

inductive DataAccessScope
  | CLINIC_ALL
  | DOCTOR_OWN
  | PATIENT_SELF
deriving DecidableEq

def DataAccessScope.ofString : String → Option DataAccessScope
  | "CLINIC_ALL" => some .CLINIC_ALL
  | "DOCTOR_OWN" => some .DOCTOR_OWN
  | "PATIENT_SELF" => some .PATIENT_SELF
  | _ => none

/-! ### Permission enum (`permissions.py` class Permission) -/

inductive Permission
  | MANAGE_DOCTORS
  | VIEW_ALL_DOCTORS
  | ADD_DOCTOR
  | EDIT_DOCTOR
  | REMOVE_DOCTOR
  | VIEW_ALL_QUEUES
  | MANAGE_ALL_QUEUES
  | START_ANY_QUEUE
  | PAUSE_ANY_QUEUE
  | CLOSE_ANY_QUEUE
  | VIEW_ALL_PATIENT_ASSOCIATIONS
  | VIEW_ALL_VISIT_RECORDS
  | VIEW_ALL_MEDICAL_NOTES
  | VIEW_DOCTOR_NOTES
  | EXPORT_PATIENT_DATA
  | MANAGE_PATIENT_PRIVACY
  | VIEW_SUBSCRIPTION
  | MANAGE_SUBSCRIPTION
  | MANAGE_PAYMENTS
  | VIEW_REVENUE
  | VIEW_BILLING_HISTORY
  | DOWNLOAD_REPORTS
  | MANAGE_PRICING
  | CONFIGURE_WHATSAPP
  | MANAGE_SETTINGS
  | MANAGE_USERS
  | VIEW_AUDIT_LOGS
  | MANAGE_CLINIC_PROFILE
  | VIEW_CLINIC_ANALYTICS
  | VIEW_DOCTOR_PERFORMANCE
  | GENERATE_REPORTS
  | EXPORT_ANALYTICS
  | VIEW_OWN_QUEUE
  | MANAGE_OWN_QUEUE
  | START_OWN_QUEUE
  | PAUSE_OWN_QUEUE
  | CLOSE_OWN_QUEUE
  | CALL_NEXT_PATIENT
  | SKIP_PATIENT
  | MANAGE_OWN_TOKENS
  | CREATE_TOKEN
  | UPDATE_TOKEN_STATUS
  | CANCEL_TOKEN
  | VIEW_TOKEN_HISTORY
  | VIEW_OWN_PATIENTS
  | MANAGE_OWN_PATIENT_ASSOCIATIONS
  | ADD_PATIENT_ASSOCIATION
  | UPDATE_PATIENT_ASSOCIATION
  | REMOVE_PATIENT_ASSOCIATION
  | ADD_VISIT_NOTES
  | EDIT_VISIT_NOTES
  | ADD_DIAGNOSIS
  | EDIT_DIAGNOSIS
  | ADD_PRESCRIPTION
  | EDIT_PRESCRIPTION
  | ADD_PRIVATE_NOTES
  | VIEW_OWN_VISIT_HISTORY
  | VIEW_OWN_STATISTICS
  | VIEW_OWN_PERFORMANCE
  | VIEW_OWN_REVENUE
  | SEND_PATIENT_MESSAGES
  | MANAGE_PATIENT_NOTIFICATIONS
  | VIEW_OTHER_DOCTOR_PATIENTS
  | VIEW_OTHER_DOCTOR_NOTES
  | VIEW_CROSS_CLINIC_PATIENT_DATA
  | MANAGE_OTHER_QUEUES
  | VIEW_OTHER_DOCTOR_REVENUE
deriving DecidableEq

/-- Python `Permission(s)`: `none` unless `s` is one of the enum's string values. -/
def Permission.ofString : String → Option Permission
  | "manage_doctors" => some .MANAGE_DOCTORS
  | "view_all_doctors" => some .VIEW_ALL_DOCTORS
  | "add_doctor" => some .ADD_DOCTOR
  | "edit_doctor" => some .EDIT_DOCTOR
  | "remove_doctor" => some .REMOVE_DOCTOR
  | "view_all_queues" => some .VIEW_ALL_QUEUES
  | "manage_all_queues" => some .MANAGE_ALL_QUEUES
  | "start_any_queue" => some .START_ANY_QUEUE
  | "pause_any_queue" => some .PAUSE_ANY_QUEUE
  | "close_any_queue" => some .CLOSE_ANY_QUEUE
  | "view_all_patient_associations" => some .VIEW_ALL_PATIENT_ASSOCIATIONS
  | "view_all_visit_records" => some .VIEW_ALL_VISIT_RECORDS
  | "view_all_medical_notes" => some .VIEW_ALL_MEDICAL_NOTES
  | "view_doctor_notes" => some .VIEW_DOCTOR_NOTES
  | "export_patient_data" => some .EXPORT_PATIENT_DATA
  | "manage_patient_privacy" => some .MANAGE_PATIENT_PRIVACY
  | "view_subscription" => some .VIEW_SUBSCRIPTION
  | "manage_subscription" => some .MANAGE_SUBSCRIPTION
  | "manage_payments" => some .MANAGE_PAYMENTS
  | "view_revenue" => some .VIEW_REVENUE
  | "view_billing_history" => some .VIEW_BILLING_HISTORY
  | "download_reports" => some .DOWNLOAD_REPORTS
  | "manage_pricing" => some .MANAGE_PRICING
  | "configure_whatsapp" => some .CONFIGURE_WHATSAPP
  | "manage_settings" => some .MANAGE_SETTINGS
  | "manage_users" => some .MANAGE_USERS
  | "view_audit_logs" => some .VIEW_AUDIT_LOGS
  | "manage_clinic_profile" => some .MANAGE_CLINIC_PROFILE
  | "view_clinic_analytics" => some .VIEW_CLINIC_ANALYTICS
  | "view_doctor_performance" => some .VIEW_DOCTOR_PERFORMANCE
  | "generate_reports" => some .GENERATE_REPORTS
  | "export_analytics" => some .EXPORT_ANALYTICS
  | "view_own_queue" => some .VIEW_OWN_QUEUE
  | "manage_own_queue" => some .MANAGE_OWN_QUEUE
  | "start_own_queue" => some .START_OWN_QUEUE
  | "pause_own_queue" => some .PAUSE_OWN_QUEUE
  | "close_own_queue" => some .CLOSE_OWN_QUEUE
  | "call_next_patient" => some .CALL_NEXT_PATIENT
  | "skip_patient" => some .SKIP_PATIENT
  | "manage_own_tokens" => some .MANAGE_OWN_TOKENS
  | "create_token" => some .CREATE_TOKEN
  | "update_token_status" => some .UPDATE_TOKEN_STATUS
  | "cancel_token" => some .CANCEL_TOKEN
  | "view_token_history" => some .VIEW_TOKEN_HISTORY
  | "view_own_patients" => some .VIEW_OWN_PATIENTS
  | "manage_own_patient_associations" => some .MANAGE_OWN_PATIENT_ASSOCIATIONS
  | "add_patient_association" => some .ADD_PATIENT_ASSOCIATION
  | "update_patient_association" => some .UPDATE_PATIENT_ASSOCIATION
  | "remove_patient_association" => some .REMOVE_PATIENT_ASSOCIATION
  | "add_visit_notes" => some .ADD_VISIT_NOTES
  | "edit_visit_notes" => some .EDIT_VISIT_NOTES
  | "add_diagnosis" => some .ADD_DIAGNOSIS
  | "edit_diagnosis" => some .EDIT_DIAGNOSIS
  | "add_prescription" => some .ADD_PRESCRIPTION
  | "edit_prescription" => some .EDIT_PRESCRIPTION
  | "add_private_notes" => some .ADD_PRIVATE_NOTES
  | "view_own_visit_history" => some .VIEW_OWN_VISIT_HISTORY
  | "view_own_statistics" => some .VIEW_OWN_STATISTICS
  | "view_own_performance" => some .VIEW_OWN_PERFORMANCE
  | "view_own_revenue" => some .VIEW_OWN_REVENUE
  | "send_patient_messages" => some .SEND_PATIENT_MESSAGES
  | "manage_patient_notifications" => some .MANAGE_PATIENT_NOTIFICATIONS
  | "view_other_doctor_patients" => some .VIEW_OTHER_DOCTOR_PATIENTS
  | "view_other_doctor_notes" => some .VIEW_OTHER_DOCTOR_NOTES
  | "view_cross_clinic_patient_data" => some .VIEW_CROSS_CLINIC_PATIENT_DATA
  | "manage_other_queues" => some .MANAGE_OTHER_QUEUES
  | "view_other_doctor_revenue" => some .VIEW_OTHER_DOCTOR_REVENUE
  | _ => none

/-! ### Role-to-permission catalog (`permissions.py` static sets).
Python uses `Set[Permission]`; membership is what every consumer reads,
so the sets are embedded as duplicate-free literal lists. -/

def ADMIN_PERMISSIONS : List Permission := [
  .MANAGE_DOCTORS, .VIEW_ALL_DOCTORS, .ADD_DOCTOR, .EDIT_DOCTOR, .REMOVE_DOCTOR,
  .VIEW_ALL_QUEUES, .MANAGE_ALL_QUEUES, .START_ANY_QUEUE, .PAUSE_ANY_QUEUE, .CLOSE_ANY_QUEUE,
  .VIEW_ALL_PATIENT_ASSOCIATIONS, .VIEW_ALL_VISIT_RECORDS, .VIEW_ALL_MEDICAL_NOTES,
  .VIEW_DOCTOR_NOTES, .EXPORT_PATIENT_DATA, .MANAGE_PATIENT_PRIVACY,
  .VIEW_SUBSCRIPTION, .MANAGE_SUBSCRIPTION, .MANAGE_PAYMENTS, .VIEW_REVENUE,
  .VIEW_BILLING_HISTORY, .DOWNLOAD_REPORTS, .MANAGE_PRICING,
  .CONFIGURE_WHATSAPP, .MANAGE_SETTINGS, .MANAGE_USERS, .VIEW_AUDIT_LOGS, .MANAGE_CLINIC_PROFILE,
  .VIEW_CLINIC_ANALYTICS, .VIEW_DOCTOR_PERFORMANCE, .GENERATE_REPORTS, .EXPORT_ANALYTICS]

def DOCTOR_PERMISSIONS : List Permission := [
  .VIEW_OWN_QUEUE, .MANAGE_OWN_QUEUE, .START_OWN_QUEUE, .PAUSE_OWN_QUEUE, .CLOSE_OWN_QUEUE,
  .CALL_NEXT_PATIENT, .SKIP_PATIENT,
  .MANAGE_OWN_TOKENS, .CREATE_TOKEN, .UPDATE_TOKEN_STATUS, .CANCEL_TOKEN, .VIEW_TOKEN_HISTORY,
  .VIEW_OWN_PATIENTS, .MANAGE_OWN_PATIENT_ASSOCIATIONS, .ADD_PATIENT_ASSOCIATION,
  .UPDATE_PATIENT_ASSOCIATION, .REMOVE_PATIENT_ASSOCIATION,
  .ADD_VISIT_NOTES, .EDIT_VISIT_NOTES, .ADD_DIAGNOSIS, .EDIT_DIAGNOSIS,
  .ADD_PRESCRIPTION, .EDIT_PRESCRIPTION, .ADD_PRIVATE_NOTES, .VIEW_OWN_VISIT_HISTORY,
  .VIEW_OWN_STATISTICS, .VIEW_OWN_PERFORMANCE, .VIEW_OWN_REVENUE,
  .SEND_PATIENT_MESSAGES, .MANAGE_PATIENT_NOTIFICATIONS]

def DOCTOR_DENIED_PERMISSIONS : List Permission := [
  .VIEW_OTHER_DOCTOR_PATIENTS, .VIEW_OTHER_DOCTOR_NOTES, .VIEW_CROSS_CLINIC_PATIENT_DATA,
  .MANAGE_OTHER_QUEUES, .VIEW_OTHER_DOCTOR_REVENUE,
  .MANAGE_DOCTORS, .MANAGE_SUBSCRIPTION, .VIEW_REVENUE, .MANAGE_SETTINGS, .CONFIGURE_WHATSAPP]

def get_permissions_for_role : UserRole → List Permission
  | .ADMIN => ADMIN_PERMISSIONS
  | .DOCTOR => DOCTOR_PERMISSIONS

def get_data_access_scope : UserRole → DataAccessScope
  | .ADMIN => .CLINIC_ALL
  | .DOCTOR => .DOCTOR_OWN

/-! ### Token payloads (`security.py` JWTSecurity).
A token is represented by its decoded payload dict; `none` means the key is
absent (or holds Python `None` — `dict.get` cannot tell them apart).
Signing/verification by the jose library is external: the embedding reasons
about well-signed tokens, whose decode returns exactly this payload. -/

structure TokenDict where
  sub : Option String := none
  user_id : Option String := none
  clinic_id : Option String := none
  whatsapp_number : Option String := none
  role : Option String := none
  doctor_id : Option String := none
  permissions : Option (List String) := none
  patient_access_scope : Option String := none
  token_type : Option String := none
  iat : Option Int := none
  exp : Option Int := none
  jti : Option String := none
  iss : Option String := none
deriving DecidableEq

/-- The identity seed handed to `JWTSecurity.create_access_token`. -/
structure IdentitySeed where
  user_id : String
  clinic_id : String
  whatsapp_number : String
  role : UserRole
  doctor_id : Option String := none
deriving DecidableEq

/-- Payload built by `JWTSecurity.create_access_token`.  `perms` is the
caller-supplied `permissions` argument (`payload["permissions"] = permissions
or []`), `now` the issue time, `expiresDelta` the TTL in seconds, `jti` the
generated uuid.  Note: the function performs no validation of the
role / doctor-id relationship, and the payload has no
`patient_access_scope` key. -/
def create_access_token (seed : IdentitySeed) (perms : Option (List String))
    (now expiresDelta : Int) (jti : String) : TokenDict :=
  { sub := some seed.user_id
    user_id := some seed.user_id
    clinic_id := some seed.clinic_id
    whatsapp_number := some seed.whatsapp_number
    role := some seed.role.value
    doctor_id := seed.doctor_id
    permissions := some (perms.getD [])
    token_type := some "access"
    iat := some now
    exp := some (now + expiresDelta)
    jti := some jti
    iss := some "pulseops-api" }

/-- Payload built by `JWTSecurity.create_refresh_token` (no role, no
permissions, no scope, no whatsapp number, no doctor id). -/
def create_refresh_token (user_id clinic_id : String)
    (now expiresDelta : Int) (jti : String) : TokenDict :=
  { sub := some user_id
    user_id := some user_id
    clinic_id := some clinic_id
    token_type := some "refresh"
    iat := some now
    exp := some (now + expiresDelta)
    jti := some jti
    iss := some "pulseops-api" }

/-! ### Revocation blacklist (`JWTSecurity._token_blacklist`).
A per-instance dict keyed by jti; embedded as an association list with
insert-overwrites-key semantics. -/

structure RevocationEntry where
  revoked_at : Int
  expires_at : Int
  token_hash : String
deriving DecidableEq

def Blacklist := List (String × RevocationEntry)
deriving DecidableEq

def Blacklist.lookup : Blacklist → String → Option RevocationEntry
  | [], _ => none
  | (k, e) :: rest, j => if k = j then some e else Blacklist.lookup rest j

def Blacklist.eraseKey (bl : Blacklist) (j : String) : Blacklist :=
  List.filter (fun kv => decide (kv.1 ≠ j)) bl

def Blacklist.insert (bl : Blacklist) (j : String) (e : RevocationEntry) : Blacklist :=
  (j, e) :: bl.eraseKey j

inductive SecErr
  | securityError
deriving DecidableEq

/-- The attribute `JWTSecurity._generate_jti`: it is referenced at
`revoke_token`'s call site but defined nowhere in the class, the module or
any base, so looking it up raises `AttributeError` — embedded as the absent
member `none`. -/
def JWTSecurity_generate_jti : Option String := none

/-- `JWTSecurity.revoke_token`: would store an entry under the token's jti,
with `expires_at` copied from the token's `exp` (default TTL from `now` when
absent) and a truncated sha256 fingerprint `fp` of the raw token.  The
default argument of `unverified_payload.get("jti", self._generate_jti())`
is evaluated eagerly, before the dict lookup, so the absent
`_generate_jti` attribute raises on every call; the handler converts the
exception to `SecurityError`, and the store write below is never reached. -/
def revoke_token (bl : Blacklist) (d : TokenDict) (now defaultExpDelta : Int)
    (fp : String) : Except SecErr Blacklist :=
  match JWTSecurity_generate_jti with
  | none => .error .securityError
  | some genJti =>
    let j := d.jti.getD genJti
    let expAt := d.exp.getD (now + defaultExpDelta)
    .ok (bl.insert j { revoked_at := now, expires_at := expAt, token_hash := fp })

/-- `JWTSecurity.is_token_revoked`: looks the token's jti up in the given
instance's blacklist; an entry whose `expires_at` has passed is deleted and
reported not-revoked (lazy cleanup).  Returns the answer and the updated
blacklist.  A missing or empty jti is never revoked. -/
def is_token_revoked (bl : Blacklist) (d : TokenDict) (now : Int) :
    Bool × Blacklist :=
  match d.jti with
  | none => (false, bl)
  | some j =>
    if j = "" then (false, bl)
    else
      match bl.lookup j with
      | none => (false, bl)
      | some e =>
        if now > e.expires_at then (false, bl.eraseKey j)
        else (true, bl)

inductive TokenErr
  | revoked
  | expired
  | invalidMissing (field : String)
  | invalidKindMismatch (expected actual : String)
  | pyValueError
deriving DecidableEq

/-- The jose-library expiry check performed inside `jwt.decode`
(`verify_exp`): a present `exp` strictly in the past raises
`ExpiredSignatureError`. -/
def joseExpired (d : TokenDict) (now : Int) : Bool :=
  match d.exp with
  | some e => decide (e < now)
  | none => false

/-- `JWTSecurity.decode_token` on a well-signed token.  Faithful to the
source: the revocation check constructs a FRESH `JWTSecurity()` instance
(`jwt_instance = JWTSecurity()`), whose blacklist attribute does not exist,
so the check always consults an empty store.  Then jose verifies signature
and expiry, then the required fields are checked in order. -/
def decode_token (d : TokenDict) (now : Int) : Except TokenErr TokenDict :=
  if (is_token_revoked [] d now).1 then .error .revoked
  else if joseExpired d now then .error .expired
  else if d.user_id = none then .error (.invalidMissing "user_id")
  else if d.clinic_id = none then .error (.invalidMissing "clinic_id")
  else if d.role = none then .error (.invalidMissing "role")
  else if d.token_type = none then .error (.invalidMissing "token_type")
  else if d.exp = none then .error (.invalidMissing "exp")
  else if d.iat = none then .error (.invalidMissing "iat")
  else .ok d

/-- `JWTSecurity.refresh_access_token`: decode the given token, reject when
its `token_type` is not `"refresh"`, then mint a new access token from its
payload (with empty whatsapp number and no doctor id). -/
def refresh_access_token (d : TokenDict) (now : Int)
    (newJti : String) (accessExpDelta : Int) : Except TokenErr TokenDict :=
  match decode_token d now with
  | .error e => .error e
  | .ok payload =>
    if payload.token_type ≠ some "refresh" then
      .error (.invalidKindMismatch "refresh" ((payload.token_type).getD "None"))
    else
      match UserRole.ofString ((payload.role).getD "") with
      | none => .error .pyValueError
      | some role =>
        .ok (create_access_token
          { user_id := (payload.user_id).getD ""
            clinic_id := (payload.clinic_id).getD ""
            whatsapp_number := ""
            role := role
            doctor_id := none }
          none now accessExpDelta newJti)

/-! ### JWTPayload — the IdentityClaims value object (`permissions.py`) -/

structure JWTPayload where
  user_id : String
  clinic_id : String
  whatsapp_number : String
  doctor_id : Option String
  role : UserRole
  permissions : List Permission
  patient_access_scope : DataAccessScope
  exp : Int
  iat : Int
  iss : String
deriving DecidableEq

/-- Parse of the payload's permission string list (`{Permission(p) for p in
token_data.get("permissions", [])}`); any unknown value raises. -/
def parsePermissions : List String → Option (List Permission)
  | [] => some []
  | s :: rest =>
    match Permission.ofString s, parsePermissions rest with
    | some p, some ps => some (p :: ps)
    | _, _ => none

/-- `JWTPayload.__init__`: every field is read from the dict with a default;
`role`, each permission, and `patient_access_scope` are parsed through their
enums and raise `ValueError` (`none`) on a missing key or unknown value.
The permission set is taken verbatim from the payload — it is NOT re-derived
from the role. -/
def JWTPayload.ofDict (d : TokenDict) : Option JWTPayload :=
  match UserRole.ofString ((d.role).getD "") with
  | none => none
  | some role =>
    match parsePermissions ((d.permissions).getD []) with
    | none => none
    | some perms =>
      match DataAccessScope.ofString ((d.patient_access_scope).getD "") with
      | none => none
      | some scope =>
        some { user_id := (d.user_id).getD ""
               clinic_id := (d.clinic_id).getD ""
               whatsapp_number := (d.whatsapp_number).getD ""
               doctor_id := d.doctor_id
               role := role
               permissions := perms
               patient_access_scope := scope
               exp := (d.exp).getD 0
               iat := (d.iat).getD 0
               iss := (d.iss).getD "" }

def JWTPayload.is_expired (p : JWTPayload) (now : Int) : Bool :=
  decide (now > p.exp)

def JWTPayload.is_admin (p : JWTPayload) : Bool :=
  decide (p.role = .ADMIN)

def JWTPayload.is_doctor (p : JWTPayload) : Bool :=
  decide (p.role = .DOCTOR)

def JWTPayload.can_access_clinic_data (p : JWTPayload) (clinic_id : String) : Bool :=
  decide (p.clinic_id = clinic_id)

def JWTPayload.can_access_doctor_data (p : JWTPayload) (doctor_id : String) : Bool :=
  if p.is_admin then true
  else decide (p.doctor_id = some doctor_id)

def JWTPayload.can_access_patient_data (p : JWTPayload)
    (doctor_id _patient_id : String) : Bool :=
  if p.is_admin then true
  else if p.is_doctor && decide (p.doctor_id = some doctor_id) then true
  else false

inductive AuthErr
  | tokenExpired
  | invalidToken
deriving DecidableEq

/-- `get_current_user` on a well-signed bearer token: PyJWT's decode checks
the expiry claim, then `JWTPayload(payload)` is constructed; any construction
failure is caught and converted to `InvalidTokenError`.  The in-function
`TokenExpiredError` raised after construction is itself caught by the
catch-all `except Exception` and converted to `InvalidTokenError` too. -/
def get_current_user (d : TokenDict) (now : Int) : Except AuthErr JWTPayload :=
  if joseExpired d now then .error .tokenExpired
  else
    match JWTPayload.ofDict d with
    | none => .error .invalidToken
    | some p =>
      if p.is_expired now then .error .invalidToken
      else .ok p

/-! ### Data isolation (`validate_data_isolation`) -/

inductive IsolationErr
  | clinicDenied
  | doctorDenied
  | patientDenied
deriving DecidableEq

/-- Python truthiness of an optional-string argument: `None` and `""` are
falsy. -/
def strTruthy : Option String → Bool
  | none => false
  | some s => decide (s ≠ "")

/-- `validate_data_isolation`: (a) clinic mismatch always denies; (b) for a
DOCTOR identity with a (truthy) resource doctor id, the id must equal the
claims' doctor id (admins bypass, since the guard is `is_doctor()`); (c) when
both a resource doctor id and a resource patient id are truthy,
`can_access_patient_data` re-runs the admin-bypass / own-doctor rule. -/
def validate_data_isolation (p : JWTPayload) (resource_clinic_id : String)
    (resource_doctor_id resource_patient_id : Option String) :
    Except IsolationErr Unit :=
  if !(p.can_access_clinic_data resource_clinic_id) then .error .clinicDenied
  else if p.is_doctor && strTruthy resource_doctor_id
      && !(p.can_access_doctor_data (resource_doctor_id.getD "")) then
    .error .doctorDenied
  else if strTruthy resource_patient_id && strTruthy resource_doctor_id
      && !(p.can_access_patient_data (resource_doctor_id.getD "")
            (resource_patient_id.getD "")) then
    .error .patientDenied
  else .ok ()

/-! ### OTP (`security.py` OTPSecurity).
SHA-256 is an external library call, passed in as a parameter. -/

/-- `OTPSecurity.create_otp_hash`: sha256 over `otp:request_id:secret`. -/
def create_otp_hash (sha256 : String → String)
    (secret otp request_id : String) : String :=
  sha256 (otp ++ ":" ++ request_id ++ ":" ++ secret)

/-- `OTPSecurity.verify_otp`: recompute the digest for the provided code and
constant-time-compare it with the stored digest. -/
def verify_otp (sha256 : String → String)
    (secret otp stored_hash request_id : String) : Bool :=
  decide (create_otp_hash sha256 secret otp request_id = stored_hash)

/-- `OTPSecurity.is_otp_expired`, with the configured TTL in seconds. -/
def is_otp_expired (created_at ttlSeconds now : Int) : Bool :=
  decide (now > created_at + ttlSeconds)

/-- The OTPRecord of spec §3: request id, salted digest, creation time,
attempt count, attempt ceiling. -/
structure OtpRecord where
  request_id : String
  code_hash : String
  created_at : Int
  attempts : Nat
  max_attempts : Nat
deriving DecidableEq

inductive OtpResult
  | ok
  | otpExpired
  | otpInvalid (attemptsRemaining : Nat)
  | otpMaxAttempts
deriving DecidableEq

/-- Modelled from the spec: the record-level OTP verification flow of §4.6
is not under src/ — src holds only the digest primitives
(`OTPSecurity.verify_otp`, `create_otp_hash`, `is_otp_expired`), the
`OTP_MAX_ATTEMPTS` error-code declaration and the `otp_max_attempts` /
`otp_expire_minutes` configuration fields.  Per the spec: check the attempt
ceiling first (reject with OTPMaxAttempts regardless of the provided code),
then expiry relative to creation time and TTL, then compare the digest; a
failed comparison increments the attempt count and reports the remaining
attempts; success invalidates the record (second component `none`). -/
def verifyOtpRecord (sha256 : String → String) (secret : String)
    (ttlSeconds : Int) (provided : String) (r : OtpRecord) (now : Int) :
    OtpResult × Option OtpRecord :=
  if r.max_attempts ≤ r.attempts then (.otpMaxAttempts, some r)
  else if is_otp_expired r.created_at ttlSeconds now then (.otpExpired, some r)
  else if verify_otp sha256 secret provided r.code_hash r.request_id then
    (.ok, none)
  else (.otpInvalid (r.max_attempts - r.attempts - 1),
        some { r with attempts := r.attempts + 1 })

/-- The record after one verification attempt (unchanged when the call
returned no record). -/
def otpStep (sha256 : String → String) (secret : String) (ttlSeconds : Int)
    (provided : String) (now : Int) (r : OtpRecord) : OtpRecord :=
  ((verifyOtpRecord sha256 secret ttlSeconds provided r now).2).getD r

/-- `k` successive verification attempts with the same provided code. -/
def otpStepN (sha256 : String → String) (secret : String) (ttlSeconds : Int)
    (provided : String) (now : Int) : Nat → OtpRecord → OtpRecord
  | 0, r => r
  | k + 1, r => otpStepN sha256 secret ttlSeconds provided now k
      (otpStep sha256 secret ttlSeconds provided now r)

/-! ### RateLimiter (`security.py` RateLimiter.check_rate_limit).
Embedded per identifier: `hist` is `self._requests[identifier]` (the dict
lookup with default `[]` is mechanical); timestamps are unix seconds. -/

/-- The pruning step: keep only timestamps strictly newer than
`now - window_seconds`. -/
def prune (hist : List Int) (now window_seconds : Int) : List Int :=
  hist.filter (fun t => decide (t > now - window_seconds))

/-- Prune timestamps at or before `now - window_seconds`, then fail without
recording when the remaining count reaches the limit, else record `now`.
Returns (success, stored history). -/
def check_rate_limit (hist : List Int) (now : Int) (limit : Nat)
    (window_seconds : Int) : Bool × List Int :=
  let pruned := prune hist now window_seconds
  if limit ≤ pruned.length then (false, pruned)
  else (true, pruned ++ [now])

/-- A sequence of check-and-record calls at the given times for one
identifier, starting from history `hist`: per-call outcomes plus the final
stored history. -/
def runCalls (limit : Nat) (window_seconds : Int) :
    List Int → List Int → List Bool × List Int
  | [], hist => ([], hist)
  | t :: ts, hist =>
    let r := check_rate_limit hist t limit window_seconds
    let rest := runCalls limit window_seconds ts r.2
    (r.1 :: rest.1, rest.2)

/-! ### DataEncryption (`encrypt_sensitive_data` / `decrypt_sensitive_data`).
`cipherEnc` stands for the composite external transform
`base64.urlsafe_b64encode(Fernet(key).encrypt(data.encode())).decode()` and
`cipherDec` for the reverse (`Fernet.decrypt` after base64 decode); both
are external library calls.  The repository code itself only dispatches on
the `data_encryption_enabled` configuration flag. -/

def encrypt_sensitive_data (cipherEnc : String → String)
    (encryption_enabled : Bool) (data : String) : String :=
  if !encryption_enabled then data else cipherEnc data

def decrypt_sensitive_data (cipherDec : String → String)
    (encryption_enabled : Bool) (encrypted_data : String) : String :=
  if !encryption_enabled then encrypted_data else cipherDec encrypted_data

/-! ### Concrete fixtures used by the theorems -/

/-- A valid DOCTOR identity seed. -/
def seedD1 : IdentitySeed :=
  { user_id := "u1", clinic_id := "c1", whatsapp_number := "+919876543210",
    role := .DOCTOR, doctor_id := some "d1" }

/-- Access token issued for `seedD1` at t=0 with a 3600 s TTL. -/
def tokD1 : TokenDict := create_access_token seedD1 none 0 3600 "j1"

/-- Access token issued for `seedD1` at t=0 expiring at t=1000. -/
def tokRev : TokenDict := create_access_token seedD1 none 0 1000 "j2"

/-- A DOCTOR seed violating the doctor-id precondition (no doctor id). -/
def seedNoDoc : IdentitySeed :=
  { user_id := "u1", clinic_id := "c1", whatsapp_number := "+919876543210",
    role := .DOCTOR, doctor_id := none }

/-- Token issued for the precondition-violating seed. -/
def tokNoDoc : TokenDict := create_access_token seedNoDoc none 0 3600 "j9"

/-- A decoded-payload dict that constructs successfully (all enum fields
valid) but carries an empty embedded permission list. -/
def dictDoctorEmptyPerms : TokenDict :=
  { user_id := some "u1", clinic_id := some "c1",
    whatsapp_number := some "+919876543210",
    role := some "DOCTOR", doctor_id := some "d1", permissions := some [],
    patient_access_scope := some "DOCTOR_OWN", token_type := some "access",
    iat := some 0, exp := some 3600, jti := some "j3",
    iss := some "pulseops-api" }

/-- Verified claims of a DOCTOR with doctorId="D1" in clinic "C1". -/
def payloadDoctorD1 : JWTPayload :=
  { user_id := "u1", clinic_id := "C1", whatsapp_number := "+919876543210",
    doctor_id := some "D1", role := .DOCTOR, permissions := DOCTOR_PERMISSIONS,
    patient_access_scope := .DOCTOR_OWN, exp := 100000, iat := 0,
    iss := "pulseops-api" }

/-- Verified claims of an ADMIN in clinic "C1". -/
def payloadAdmin : JWTPayload :=
  { user_id := "u2", clinic_id := "C1", whatsapp_number := "+919876543211",
    doctor_id := none, role := .ADMIN, permissions := ADMIN_PERMISSIONS,
    patient_access_scope := .CLINIC_ALL, exp := 100000, iat := 0,
    iss := "pulseops-api" }

/-! ### Theorems -/

/-- Helper: a freshly constructed `JWTSecurity()` instance has an empty
blacklist, so its revocation check answers false for every token. -/
theorem fresh_blacklist_not_revoked (d : TokenDict) (now : Int) :
    (is_token_revoked [] d now).1 = false := by
  cases hj : d.jti with
  | none => simp [is_token_revoked, hj]
  | some j =>
    by_cases h : j = ""
    · simp [is_token_revoked, hj, h]
    · simp [is_token_revoked, hj, h, Blacklist.lookup]

/-- Helper: `decode_token` never reports the revocation error, because its
revocation check runs against the fresh instance's empty blacklist. -/
theorem decode_token_never_revoked (d : TokenDict) (now : Int) :
    decode_token d now ≠ .error .revoked := by
  unfold decode_token
  simp only [fresh_blacklist_not_revoked]
  repeat' split
  all_goals simp_all

/-- C9: for both roles the permission catalog is deterministic (it is a pure
function of the role alone, so two lookups agree) and non-empty; the
ADMIN-only tag `manage_subscription` is absent from the DOCTOR set; and every
explicitly-denied doctor tag (in particular every tag whose name implies
cross-doctor or cross-clinic scope) is absent from the DOCTOR set. -/
theorem C9_permission_catalog :
    (∀ r : UserRole, get_permissions_for_role r = get_permissions_for_role r ∧
      get_permissions_for_role r ≠ []) ∧
    Permission.MANAGE_SUBSCRIPTION ∉ get_permissions_for_role .DOCTOR ∧
    (∀ p ∈ DOCTOR_DENIED_PERMISSIONS, p ∉ get_permissions_for_role .DOCTOR) := by
  refine ⟨fun r => ⟨rfl, ?_⟩, by decide, by decide⟩
  cases r <;> decide

/-- Witness for C9 at concrete inputs: the DOCTOR catalog is non-empty and
the denied tag `view_other_doctor_patients` is not in it. -/
theorem C9_permission_catalog_witness :
    get_permissions_for_role .DOCTOR ≠ [] ∧
    Permission.VIEW_OTHER_DOCTOR_PATIENTS ∉ get_permissions_for_role .DOCTOR :=
  ⟨(C9_permission_catalog.1 .DOCTOR).2,
    C9_permission_catalog.2.2 Permission.VIEW_OTHER_DOCTOR_PATIENTS (by decide)⟩

/-- C1 (code bug): the round-trip re-derivation property fails on the code.
For the valid DOCTOR seed `seedD1`, the issued token decodes successfully,
but it embeds the caller-default empty permission list while the catalog set
for DOCTOR is non-empty; reconstructing `JWTPayload` from the issued payload
fails outright (it has no `patient_access_scope` key), so `get_current_user`
rejects the system's own access token; and even a payload that does
construct successfully keeps its embedded permissions verbatim instead of
re-deriving `get_permissions_for_role` for its role. -/
theorem C1_verify_trusts_payload_code_bug :
    decode_token tokD1 100 = .ok tokD1 ∧
    tokD1.permissions = some [] ∧
    get_permissions_for_role seedD1.role ≠ [] ∧
    JWTPayload.ofDict tokD1 = none ∧
    get_current_user tokD1 100 = .error .invalidToken ∧
    (∃ p, JWTPayload.ofDict dictDoctorEmptyPerms = some p ∧
      p.permissions ≠ get_permissions_for_role p.role) := by
  refine ⟨rfl, rfl, by decide, rfl, rfl, ⟨_, rfl, by decide⟩⟩

/-- C2 (code bug): revocation is broken at both ends.  `revoke_token`
always raises `SecurityError` — the eagerly evaluated `dict.get` default
calls the nonexistent `self._generate_jti` attribute — so no blacklist
entry is ever written and every instance's blacklist stays empty; on the
empty store (the only program-reachable state) `is_token_revoked` answers
false for every token at every time; and `decode_token`, which moreover
consults a freshly constructed instance, never fails with the revocation
error: the token meant to be revoked at t=100 still decodes at t=200, well
before its natural expiry at t=1000.  The behaviour the claim requires —
verify failing with a revocation-specific error after revoke until natural
expiry, then lazy cleanup of the stored entry — is unreachable in the
code. -/
theorem C2_revocation_code_bug :
    (∀ (bl : Blacklist) (d : TokenDict) (now defaultExpDelta : Int)
       (fp : String),
      revoke_token bl d now defaultExpDelta fp = .error .securityError) ∧
    revoke_token [] tokRev 100 3600 "fp" = .error .securityError ∧
    (∀ (d : TokenDict) (now : Int), is_token_revoked [] d now = (false, [])) ∧
    decode_token tokRev 200 = .ok tokRev ∧
    (∀ (d : TokenDict) (now : Int), decode_token d now ≠ .error .revoked) := by
  refine ⟨fun _ _ _ _ _ => rfl, rfl, ?_, rfl, decode_token_never_revoked⟩
  intro d now
  cases hj : d.jti with
  | none => simp [is_token_revoked, hj]
  | some j =>
    by_cases h : j = ""
    · simp [is_token_revoked, hj, h]
    · simp [is_token_revoked, hj, h, Blacklist.lookup]

/-- C3: the data-isolation check denies on clinic mismatch regardless of
role; a DOCTOR identity is denied on a foreign (truthy) resource doctor id
and admins bypass the doctor rule; the same admin-bypass/own-doctor rule is
re-applied by `can_access_patient_data` when both a resource doctor id and a
resource patient id are given; and the concrete scenarios hold: doctor D1 is
denied on D2 resources in the same clinic (also patient-scoped ones),
granted on D1 resources, the admin is granted on both, and both identities
are denied cross-clinic. -/
theorem C3_data_isolation :
    (∀ (p : JWTPayload) (rc : String) (rd rp : Option String),
      p.clinic_id ≠ rc →
      validate_data_isolation p rc rd rp = .error .clinicDenied) ∧
    (∀ (p : JWTPayload) (rc s : String) (rp : Option String),
      p.clinic_id = rc → p.role = .DOCTOR → s ≠ "" → p.doctor_id ≠ some s →
      validate_data_isolation p rc (some s) rp = .error .doctorDenied) ∧
    (∀ (p : JWTPayload) (rc : String) (rd rp : Option String),
      p.role = .ADMIN → p.clinic_id = rc →
      validate_data_isolation p rc rd rp = .ok ()) ∧
    (∀ (p : JWTPayload) (s ps : String),
      p.role = .DOCTOR → p.doctor_id ≠ some s →
      p.can_access_patient_data s ps = false) ∧
    (∀ (p : JWTPayload) (s ps : String),
      p.role = .ADMIN → p.can_access_patient_data s ps = true) ∧
    (validate_data_isolation payloadDoctorD1 "C1" (some "D2") none
        = .error .doctorDenied ∧
      validate_data_isolation payloadDoctorD1 "C1" (some "D1") none = .ok () ∧
      validate_data_isolation payloadAdmin "C1" (some "D1") none = .ok () ∧
      validate_data_isolation payloadAdmin "C1" (some "D2") none = .ok () ∧
      validate_data_isolation payloadDoctorD1 "C2" (some "D1") none
        = .error .clinicDenied ∧
      validate_data_isolation payloadAdmin "C2" (some "D1") none
        = .error .clinicDenied ∧
      validate_data_isolation payloadDoctorD1 "C1" (some "D2") (some "P1")
        = .error .doctorDenied ∧
      validate_data_isolation payloadAdmin "C1" (some "D2") (some "P1")
        = .ok ()) := by
  refine ⟨?_, ?_, ?_, ?_, ?_, rfl, rfl, rfl, rfl, rfl, rfl, rfl, rfl⟩
  · intro p rc rd rp h
    simp [validate_data_isolation, JWTPayload.can_access_clinic_data, h]
  · intro p rc s rp h1 h2 h3 h4
    simp [validate_data_isolation, JWTPayload.can_access_clinic_data,
      JWTPayload.is_doctor, JWTPayload.is_admin,
      JWTPayload.can_access_doctor_data, strTruthy, h1, h2, h3, h4]
  · intro p rc rd rp h1 h2
    simp [validate_data_isolation, JWTPayload.can_access_clinic_data,
      JWTPayload.is_doctor, JWTPayload.is_admin,
      JWTPayload.can_access_patient_data, h1, h2]
  · intro p s ps h1 h2
    simp [JWTPayload.can_access_patient_data, JWTPayload.is_admin,
      JWTPayload.is_doctor, h1, h2]
  · intro p s ps h1
    simp [JWTPayload.can_access_patient_data, JWTPayload.is_admin, h1]

/-- Witness for C3 at concrete inputs: the general clinic-mismatch,
doctor-mismatch and admin-grant rules applied to the fixture identities. -/
theorem C3_data_isolation_witness :
    validate_data_isolation payloadDoctorD1 "CX" (some "D1") none
        = .error .clinicDenied ∧
    validate_data_isolation payloadDoctorD1 "C1" (some "D9") (some "P1")
        = .error .doctorDenied ∧
    validate_data_isolation payloadAdmin "C1" (some "D9") (some "P1")
        = .ok () ∧
    payloadDoctorD1.can_access_patient_data "D9" "P1" = false ∧
    payloadAdmin.can_access_patient_data "D9" "P1" = true :=
  ⟨C3_data_isolation.1 payloadDoctorD1 "CX" (some "D1") none (by decide),
    C3_data_isolation.2.1 payloadDoctorD1 "C1" "D9" (some "P1") rfl rfl
      (by decide) (by decide),
    C3_data_isolation.2.2.1 payloadAdmin "C1" (some "D9") (some "P1") rfl rfl,
    C3_data_isolation.2.2.2.1 payloadDoctorD1 "D9" "P1" rfl (by decide),
    C3_data_isolation.2.2.2.2.1 payloadAdmin "D9" "P1" rfl⟩

/-- C4: a REFRESH token is rejected with an InvalidToken-class error on the
access-token paths — `get_current_user` rejects it (its payload has no role
field), and even `decode_token`'s structural check rejects it for the
missing `role` — and an ACCESS token presented to `refresh_access_token` is
rejected with the kind-mismatch InvalidToken error; a kind mismatch never
silently succeeds. -/
theorem C4_token_kind_mismatch :
    (∀ (uid cid : String) (t0 expD : Int) (jti : String) (now : Int),
      ¬ t0 + expD < now →
      get_current_user (create_refresh_token uid cid t0 expD jti) now
        = .error .invalidToken) ∧
    (∀ (uid cid : String) (t0 expD : Int) (jti : String) (now : Int),
      ¬ t0 + expD < now →
      decode_token (create_refresh_token uid cid t0 expD jti) now
        = .error (.invalidMissing "role")) ∧
    (∀ (seed : IdentitySeed) (perms : Option (List String)) (t0 expD : Int)
      (jti : String) (now : Int) (newJti : String) (aExpD : Int),
      ¬ t0 + expD < now →
      refresh_access_token (create_access_token seed perms t0 expD jti) now
          newJti aExpD
        = .error (.invalidKindMismatch "refresh" "access")) := by
  refine ⟨?_, ?_, ?_⟩
  · intro uid cid t0 expD jti now h
    have hf : joseExpired (create_refresh_token uid cid t0 expD jti) now
        = false := by
      simp [joseExpired, create_refresh_token, h]
    simp [get_current_user, hf]
    rfl
  · intro uid cid t0 expD jti now h
    have hr := fresh_blacklist_not_revoked
      (create_refresh_token uid cid t0 expD jti) now
    have hf : joseExpired (create_refresh_token uid cid t0 expD jti) now
        = false := by
      simp [joseExpired, create_refresh_token, h]
    simp only [create_refresh_token] at hr hf
    simp [decode_token, create_refresh_token, hr, hf]
  · intro seed perms t0 expD jti now newJti aExpD h
    have hr := fresh_blacklist_not_revoked
      (create_access_token seed perms t0 expD jti) now
    have hf : joseExpired (create_access_token seed perms t0 expD jti) now
        = false := by
      simp [joseExpired, create_access_token, h]
    simp only [create_access_token] at hr hf
    have hd : decode_token (create_access_token seed perms t0 expD jti) now
        = .ok (create_access_token seed perms t0 expD jti) := by
      simp [decode_token, create_access_token, hr, hf]
    simp only [create_access_token] at hd
    simp [refresh_access_token, create_access_token, hd]

/-- Witness for C4 at concrete inputs: both mismatch directions evaluated on
fresh unexpired tokens. -/
theorem C4_token_kind_mismatch_witness :
    get_current_user (create_refresh_token "u1" "c1" 0 604800 "jr") 100
        = .error .invalidToken ∧
    decode_token (create_refresh_token "u1" "c1" 0 604800 "jr") 100
        = .error (.invalidMissing "role") ∧
    refresh_access_token tokD1 100 "jn" 3600
        = .error (.invalidKindMismatch "refresh" "access") :=
  ⟨C4_token_kind_mismatch.1 "u1" "c1" 0 604800 "jr" 100 (by decide),
    C4_token_kind_mismatch.2.1 "u1" "c1" 0 604800 "jr" 100 (by decide),
    C4_token_kind_mismatch.2.2 seedD1 none 0 3600 "j1" 100 "jn" 3600
      (by decide)⟩

/-- C7: constructing the identity object requires valid `role` and
`patient_access_scope` enum values (a successful construction's fields come
from parsing them); a payload with no `patient_access_scope` key always
fails construction; `get_current_user` converts every construction failure
into the InvalidToken error and only ever returns the fully-parsed identity;
in particular the exact payload shape produced by `create_access_token` is
always rejected. -/
theorem C7_payload_enum_validation :
    (∀ (d : TokenDict) (p : JWTPayload), JWTPayload.ofDict d = some p →
      UserRole.ofString ((d.role).getD "") = some p.role ∧
      DataAccessScope.ofString ((d.patient_access_scope).getD "")
        = some p.patient_access_scope) ∧
    (∀ d : TokenDict, d.patient_access_scope = none →
      JWTPayload.ofDict d = none) ∧
    (∀ (d : TokenDict) (now : Int), joseExpired d now = false →
      JWTPayload.ofDict d = none →
      get_current_user d now = .error .invalidToken) ∧
    (∀ (d : TokenDict) (now : Int) (p : JWTPayload),
      get_current_user d now = .ok p → JWTPayload.ofDict d = some p) ∧
    (∀ (seed : IdentitySeed) (perms : Option (List String)) (t0 expD : Int)
      (jti : String) (now : Int),
      joseExpired (create_access_token seed perms t0 expD jti) now = false →
      get_current_user (create_access_token seed perms t0 expD jti) now
        = .error .invalidToken) := by
  have hb : ∀ d : TokenDict, d.patient_access_scope = none →
      JWTPayload.ofDict d = none := by
    intro d h
    unfold JWTPayload.ofDict
    rw [h]
    split
    · rfl
    · split
      · rfl
      · rfl
  have hc : ∀ (d : TokenDict) (now : Int), joseExpired d now = false →
      JWTPayload.ofDict d = none →
      get_current_user d now = .error .invalidToken := by
    intro d now h1 h2
    simp [get_current_user, h1, h2]
  refine ⟨?_, hb, hc, ?_, ?_⟩
  · intro d p h
    unfold JWTPayload.ofDict at h
    split at h
    · exact absurd h (by simp)
    · split at h
      · exact absurd h (by simp)
      · split at h
        · exact absurd h (by simp)
        · injection h with h
          subst h
          refine ⟨?_, ?_⟩ <;> assumption
  · intro d now p h
    unfold get_current_user at h
    split at h
    · exact absurd h (by simp)
    · split at h
      · exact absurd h (by simp)
      · rename_i q hq
        split at h
        · exact absurd h (by simp)
        · injection h with h
          subst h
          exact hq
  · intro seed perms t0 expD jti now h
    exact hc _ _ h (hb _ rfl)

/-- Witness for C7 at concrete inputs: the system's own unexpired access
token for a valid ADMIN seed is rejected by `get_current_user`. -/
theorem C7_payload_enum_validation_witness :
    get_current_user
        (create_access_token
          { user_id := "u7", clinic_id := "c7",
            whatsapp_number := "+911111111111", role := .ADMIN,
            doctor_id := none }
          none 0 3600 "j7") 100
      = .error .invalidToken :=
  C7_payload_enum_validation.2.2.2.2
    { user_id := "u7", clinic_id := "c7",
      whatsapp_number := "+911111111111", role := .ADMIN, doctor_id := none }
    none 0 3600 "j7" 100 rfl

/-- Counterexample to C8 as stated: for the DOCTOR seed with no doctor id,
`create_access_token` does return a signed token — it carries
`token_type = "access"` and passes `decode_token`'s full verification — so
the precondition violation is silently tolerated, not rejected. -/
theorem C8_counterexample :
    seedNoDoc.role = .DOCTOR ∧ seedNoDoc.doctor_id = none ∧
    tokNoDoc.token_type = some "access" ∧
    decode_token tokNoDoc 100 = .ok tokNoDoc :=
  ⟨rfl, rfl, rfl, rfl⟩

/-- C8 (amended): `create_access_token` performs no role/doctor-id
precondition check: for every seed — including role = DOCTOR with no doctor
id, or a doctor id with a non-DOCTOR role — it returns a signed access token
embedding the given role and doctor id verbatim. -/
theorem C8_no_precondition_check :
    ∀ (seed : IdentitySeed) (perms : Option (List String)) (t0 expD : Int)
      (jti : String),
      (create_access_token seed perms t0 expD jti).token_type
          = some "access" ∧
      (create_access_token seed perms t0 expD jti).doctor_id
          = seed.doctor_id ∧
      (create_access_token seed perms t0 expD jti).role
          = some seed.role.value :=
  fun _ _ _ _ _ => ⟨rfl, rfl, rfl⟩

/-- Helper: a verification attempt with a mismatching digest, below the
ceiling and before expiry, increments the attempt count and reports the
remaining attempts. -/
theorem verifyOtpRecord_wrong (sha256 : String → String) (secret : String)
    (ttl : Int) (wrong : String) (r : OtpRecord) (now : Int)
    (hmax : r.attempts < r.max_attempts)
    (hexp : is_otp_expired r.created_at ttl now = false)
    (hmiss : create_otp_hash sha256 secret wrong r.request_id ≠ r.code_hash) :
    verifyOtpRecord sha256 secret ttl wrong r now
      = (.otpInvalid (r.max_attempts - r.attempts - 1),
         some { r with attempts := r.attempts + 1 }) := by
  have h1 : ¬ r.max_attempts ≤ r.attempts := by omega
  simp [verifyOtpRecord, verify_otp, h1, hexp, hmiss]

/-- Helper: `k` wrong attempts from a record whose count can still absorb
them add exactly `k` to the attempt count and change nothing else. -/
theorem otpStepN_wrong (sha256 : String → String) (secret : String)
    (ttl : Int) (wrong : String) (now : Int) :
    ∀ (k : Nat) (r : OtpRecord),
      r.attempts + k ≤ r.max_attempts →
      is_otp_expired r.created_at ttl now = false →
      create_otp_hash sha256 secret wrong r.request_id ≠ r.code_hash →
      otpStepN sha256 secret ttl wrong now k r
        = { r with attempts := r.attempts + k } := by
  intro k
  induction k with
  | zero => intro r _ _ _; rfl
  | succ k ih =>
    intro r hK hexp hmiss
    have hmax : r.attempts < r.max_attempts := by omega
    have hstep : otpStep sha256 secret ttl wrong now r
        = { r with attempts := r.attempts + 1 } := by
      simp [otpStep, verifyOtpRecord_wrong sha256 secret ttl wrong r now
        hmax hexp hmiss]
    have harith : r.attempts + (k + 1) = r.attempts + 1 + k := by omega
    rw [otpStepN, hstep, ih { r with attempts := r.attempts + 1 }
      (by simp; omega) hexp hmiss]
    simp [harith]

/-- Helper: a verification attempt with the matching digest, below the
ceiling and before expiry, succeeds and invalidates the record. -/
theorem verifyOtpRecord_correct (sha256 : String → String) (secret : String)
    (ttl : Int) (provided : String) (r : OtpRecord) (now : Int)
    (hmax : r.attempts < r.max_attempts)
    (hexp : is_otp_expired r.created_at ttl now = false)
    (hmatch : create_otp_hash sha256 secret provided r.request_id
      = r.code_hash) :
    verifyOtpRecord sha256 secret ttl provided r now = (.ok, none) := by
  have h1 : ¬ r.max_attempts ≤ r.attempts := by omega
  simp [verifyOtpRecord, verify_otp, h1, hexp, hmatch]

/-- C5 (record flow modelled from spec §4.6): once the attempt ceiling is
reached, verification fails with OTPMaxAttempts regardless of the provided
code — universally over the provided code, hence before and independent of
any digest comparison — and returns the record unchanged, so the request id
stays locked out on every later attempt; below the ceiling, after max-1
wrong attempts the correct code still succeeds (and invalidates the
record), while one further wrong attempt locks the record so that even the
correct code then fails with OTPMaxAttempts. -/
theorem C5_otp_attempt_ceiling :
    (∀ (sha256 : String → String) (secret : String) (ttl : Int)
       (provided : String) (r : OtpRecord) (now : Int),
      r.max_attempts ≤ r.attempts →
      verifyOtpRecord sha256 secret ttl provided r now
        = (.otpMaxAttempts, some r)) ∧
    (∀ (sha256 : String → String) (secret correct wrong reqId : String)
       (ttl created : Int) (m : Nat) (now : Int),
      0 < m →
      is_otp_expired created ttl now = false →
      create_otp_hash sha256 secret wrong reqId
        ≠ create_otp_hash sha256 secret correct reqId →
      verifyOtpRecord sha256 secret ttl correct
          (otpStepN sha256 secret ttl wrong now (m - 1)
            ⟨reqId, create_otp_hash sha256 secret correct reqId, created, 0, m⟩)
          now
        = (.ok, none) ∧
      verifyOtpRecord sha256 secret ttl correct
          (otpStepN sha256 secret ttl wrong now m
            ⟨reqId, create_otp_hash sha256 secret correct reqId, created, 0, m⟩)
          now
        = (.otpMaxAttempts,
           some (otpStepN sha256 secret ttl wrong now m
             ⟨reqId, create_otp_hash sha256 secret correct reqId, created,
              0, m⟩))) := by
  have hceil : ∀ (sha256 : String → String) (secret : String) (ttl : Int)
      (provided : String) (r : OtpRecord) (now : Int),
      r.max_attempts ≤ r.attempts →
      verifyOtpRecord sha256 secret ttl provided r now
        = (.otpMaxAttempts, some r) := by
    intro sha256 secret ttl provided r now h
    simp [verifyOtpRecord, h]
  refine ⟨hceil, ?_⟩
  intro sha256 secret correct wrong reqId ttl created m now hm hexp hmiss
  have hN := otpStepN_wrong sha256 secret ttl wrong now (m - 1)
    ⟨reqId, create_otp_hash sha256 secret correct reqId, created, 0, m⟩
    (by simp) hexp hmiss
  have hM := otpStepN_wrong sha256 secret ttl wrong now m
    ⟨reqId, create_otp_hash sha256 secret correct reqId, created, 0, m⟩
    (by simp) hexp hmiss
  constructor
  · rw [hN]
    apply verifyOtpRecord_correct
    · show 0 + (m - 1) < m
      omega
    · exact hexp
    · rfl
  · rw [hM]
    refine hceil sha256 secret ttl correct _ now ?_
    show m ≤ 0 + m
    omega

/-- Witness for C5 at concrete inputs: with the identity standing in for
sha256, secret "s", request id "r", correct code "123456", wrong code
"000000", ceiling 3, TTL 300 s: the correct code succeeds after 2 wrong
attempts, a third wrong attempt locks the record even for the correct code,
and a record already at the ceiling is rejected regardless of code. -/
theorem C5_otp_attempt_ceiling_witness :
    verifyOtpRecord id "s" 300 "123456"
        (otpStepN id "s" 300 "000000" 10 2
          ⟨"r", create_otp_hash id "s" "123456" "r", 0, 0, 3⟩) 10
      = (.ok, none) ∧
    verifyOtpRecord id "s" 300 "123456"
        (otpStepN id "s" 300 "000000" 10 3
          ⟨"r", create_otp_hash id "s" "123456" "r", 0, 0, 3⟩) 10
      = (.otpMaxAttempts,
         some (otpStepN id "s" 300 "000000" 10 3
           ⟨"r", create_otp_hash id "s" "123456" "r", 0, 0, 3⟩)) ∧
    verifyOtpRecord id "s" 300 "123456"
        ⟨"r", create_otp_hash id "s" "123456" "r", 0, 3, 3⟩ 10
      = (.otpMaxAttempts,
         some ⟨"r", create_otp_hash id "s" "123456" "r", 0, 3, 3⟩) :=
  ⟨(C5_otp_attempt_ceiling.2 id "s" "123456" "000000" "r" 300 0 3 10
      (by decide) (by decide) (by decide)).1,
    (C5_otp_attempt_ceiling.2 id "s" "123456" "000000" "r" 300 0 3 10
      (by decide) (by decide) (by decide)).2,
    C5_otp_attempt_ceiling.1 id "s" 300 "123456"
      ⟨"r", create_otp_hash id "s" "123456" "r", 0, 3, 3⟩ 10 (by decide)⟩

/-- C6: a check-and-record call prunes entries at or before `now - W`; on
success it stores the pruned history plus `now` and the stored history never
exceeds `L` entries; when the pruned count has reached `L` it fails without
recording the request; once every recorded timestamp has aged beyond the
window a call succeeds again; and concretely for limit 5, window 60 s, five
calls within the window succeed, the sixth fails with the rate-limit error,
and a later call outside the window succeeds again. -/
theorem C6_rate_limiter :
    (∀ (hist : List Int) (now : Int) (L : Nat) (W : Int),
      (check_rate_limit hist now L W).1 = true →
      (check_rate_limit hist now L W).2 = prune hist now W ++ [now] ∧
        (check_rate_limit hist now L W).2.length ≤ L) ∧
    (∀ (hist : List Int) (now : Int) (L : Nat) (W : Int),
      (check_rate_limit hist now L W).1 = false →
      (check_rate_limit hist now L W).2 = prune hist now W ∧
        L ≤ (check_rate_limit hist now L W).2.length) ∧
    (∀ (hist : List Int) (now : Int) (L : Nat) (W : Int),
      (∀ t ∈ hist, t ≤ now - W) → 0 < L →
      (check_rate_limit hist now L W).1 = true) ∧
    (runCalls 5 60 [0, 10, 20, 30, 40, 50, 111] []).1
      = [true, true, true, true, true, false, true] := by
  refine ⟨?_, ?_, ?_, by decide⟩
  · intro hist now L W h
    by_cases hc : L ≤ (prune hist now W).length
    · simp [check_rate_limit, hc] at h
    · refine ⟨by simp [check_rate_limit, hc], ?_⟩
      simp [check_rate_limit, hc]
      omega
  · intro hist now L W h
    by_cases hc : L ≤ (prune hist now W).length
    · refine ⟨by simp [check_rate_limit, hc], ?_⟩
      simp [check_rate_limit, hc]
    · simp [check_rate_limit, hc] at h
  · intro hist now L W hall hL
    have hnil : prune hist now W = [] := by
      simp only [prune, List.filter_eq_nil_iff]
      intro t ht
      have := hall t ht
      simp only [decide_eq_true_eq]
      omega
    have hc : ¬ L ≤ (prune hist now W).length := by
      rw [hnil]
      simp only [List.length_nil]
      omega
    simp [check_rate_limit, hc]

/-- Witness for C6 at concrete inputs: a successful call stores at most the
limit, a failing call does not record, and a fully-aged history admits a new
call. -/
theorem C6_rate_limiter_witness :
    (check_rate_limit [0, 10] 20 5 60).2 = [0, 10, 20] ∧
    (check_rate_limit [0, 10] 20 2 60).2 = [0, 10] ∧
    (check_rate_limit [0, 10] 100 2 60).1 = true :=
  ⟨(C6_rate_limiter.1 [0, 10] 20 5 60 (by decide)).1,
    (C6_rate_limiter.2.1 [0, 10] 20 2 60 (by decide)).1,
    C6_rate_limiter.2.2.1 [0, 10] 100 2 60 (by decide) (by decide)⟩

/-- C10: with the external cipher satisfying its documented inverse
contract, decrypting an encryption of any string returns the string, both
when the encryption flag is enabled and when it is disabled; and when
encryption is disabled both operations are no-ops returning their input
unchanged. -/
theorem C10_pii_roundtrip :
    ∀ (cipherEnc cipherDec : String → String),
      (∀ s, cipherDec (cipherEnc s) = s) →
      ∀ (enabled : Bool) (x : String),
        decrypt_sensitive_data cipherDec enabled
            (encrypt_sensitive_data cipherEnc enabled x) = x ∧
          encrypt_sensitive_data cipherEnc false x = x ∧
          decrypt_sensitive_data cipherDec false x = x := by
  intro e d h enabled x
  refine ⟨?_, rfl, rfl⟩
  cases enabled
  · rfl
  · simp [encrypt_sensitive_data, decrypt_sensitive_data, h]

/-- Witness for C10 at a concrete input, with a concrete cipher satisfying
the inverse contract. -/
theorem C10_pii_roundtrip_witness :
    decrypt_sensitive_data id true
        (encrypt_sensitive_data id true "patient-record") = "patient-record" :=
  (C10_pii_roundtrip id id (fun _ => rfl) true "patient-record").1

end PulseOps
